import Mathlib

/-!
Shallow embedding of the pynapple fork's randomization module
(`pynapple/process/randomize.py`) together with the small parts of the
pynapple core (Ts / TsGroup / IntervalSet construction) and of the
signal-processing module that the verified claims need.  Timestamps are
modelled as rationals; the uniform random draws made by `np.random.uniform`
are passed in explicitly as parameters, with the bounds the code draws them
from appearing as hypotheses of the theorems.
-/

/-- An interval set: an ordered list of `(start, end)` pairs of rational
time bounds.  Mirrors pynapple's `IntervalSet`; intervals are closed. -/
structure IntervalSet where
  intervals : List (ℚ × ℚ)
deriving DecidableEq, Repr

/-- Decidable membership of a time point in some interval of the set. -/
def IntervalSet.memB (S : IntervalSet) (x : ℚ) : Bool :=
  S.intervals.any fun p => decide (p.1 ≤ x) && decide (x ≤ p.2)

/-- A point process: a list of timestamps plus its time support.
Mirrors pynapple's `Ts`. -/
structure Ts where
  t : List ℚ
  time_support : IntervalSet
deriving DecidableEq, Repr

/-- Sorting used to model `np.sort` on rational timestamps. -/
def sortQ (l : List ℚ) : List ℚ := l.insertionSort (· ≤ ·)

/-- Minimum of a timestamp list (default 0 for the empty list). -/
def listMin (l : List ℚ) : ℚ := l.foldl min (l.headD 0)

/-- Maximum of a timestamp list (default 0 for the empty list). -/
def listMax (l : List ℚ) : ℚ := l.foldl max (l.headD 0)

/-- Modelled from the spec: the pynapple core `Ts` constructor
(`nap.Ts(t=..., time_support=...)`) is not under `src/`.  Per the spec,
"every timestamp lies within some interval of its time support" and the
"time support defaults to [min,max] if unspecified"; with an explicit
support the constructor restricts the timestamps to it (the randomize
module's own docstring relies on this: with `keep_tsupport=True` "the
number of timestamps will not be conserved"). -/
def mkTs (times : List ℚ) (support : Option IntervalSet) : Ts :=
  match support with
  | some S => ⟨times.filter (fun x => S.memB x), S⟩
  | none =>
      match times with
      | [] => ⟨[], ⟨[]⟩⟩
      | _ => ⟨times, ⟨[(listMin times, listMax times)]⟩⟩

/-- Modelled from the spec: `ts.start_time()` of the pynapple core is not
under `src/`; the spec's shift contract speaks of "the support's end" and
"support duration", so the bounds are read from the time support. -/
def Ts.start_time (ts : Ts) : ℚ := (ts.time_support.intervals.headD (0, 0)).1

/-- Modelled from the spec: `ts.end_time()`, the final bound of the time
support (see `Ts.start_time`). -/
def Ts.end_time (ts : Ts) : ℚ := (ts.time_support.intervals.getLastD (0, 0)).2

/-- A group of point processes: keyed timestamp lists sharing one time
support.  Mirrors pynapple's `TsGroup`. -/
structure TsGroup where
  members : List (ℕ × List ℚ)
  time_support : IntervalSet
deriving DecidableEq, Repr

/-- Modelled from the spec: the pynapple core `TsGroup` constructor is not
under `src/`.  With an explicit `time_support` every member is restricted
to it (same containment invariant as `Ts`); without one the support is
inferred from the members' extent, covering every member timestamp. -/
def mkTsGroup (members : List (ℕ × List ℚ)) (support : Option IntervalSet) :
    TsGroup :=
  match support with
  | some S => ⟨members.map fun kv => (kv.1, kv.2.filter (fun x => S.memB x)), S⟩
  | none =>
      ⟨members,
       ⟨[(listMin (members.map fun kv => listMin kv.2),
          listMax (members.map fun kv => listMax kv.2))]⟩⟩

/-- Python-style modulus on rationals: `a % b = a - b * ⌊a / b⌋`, the
semantics of numpy's `%` on floats (for `b > 0` the result is in `[0, b)`). -/
def qmod (a b : ℚ) : ℚ := a - b * ⌊a / b⌋

/-- `_shift_ts` (randomize.py lines 60-65): the drawn uniform offset
`shift` is a parameter; the code computes
`(ts.times() + shift) % ts.end_time() + ts.start_time()`, sorts, and
rebuilds a `Ts` with the input's time support. -/
def shift_ts (ts : Ts) (shift : ℚ) : Ts :=
  mkTs (sortQ (ts.t.map fun x => qmod (x + shift) ts.end_time + ts.start_time))
    (some ts.time_support)

/-- The wrapped (pre-constructor) timestamps of `_shift_ts`, i.e. line 63
of randomize.py before `nap.Ts` restricts them to the support. -/
def shiftedStamps (ts : Ts) (shift : ℚ) : List ℚ :=
  ts.t.map fun x => qmod (x + shift) ts.end_time + ts.start_time

/-- The per-member wrap stage of `_shift_tsgroup` (randomize.py lines
88-98): both bounds are read from index 0 of the group support
(`time_support.start[0]`, `time_support.end[0]`); the member at position
`i` gets the independently drawn offset `shifts i`. -/
def shift_tsgroup_stage (g : TsGroup) (shifts : ℕ → ℚ) : List (ℕ × List ℚ) :=
  let st := (g.time_support.intervals.headD (0, 0)).1
  let en := (g.time_support.intervals.headD (0, 0)).2
  g.members.enum.map fun p =>
    (p.2.1, sortQ (p.2.2.map fun x => qmod (x + shifts p.1) en + st))

/-- `_shift_tsgroup` (randomize.py lines 68-99): wrap stage followed by
`nap.TsGroup(..., time_support=tsgroup.time_support)`. -/
def shift_tsgroup (g : TsGroup) (shifts : ℕ → ℚ) : TsGroup :=
  mkTsGroup (shift_tsgroup_stage g shifts) (some g.time_support)

/-- `_jitter_ts` (randomize.py lines 141-167): timestamp `i` receives its
own drawn perturbation `jitters i`; with `keep_tsupport=True` the input
support is kept (and enforced), otherwise the support is inferred. -/
def jitter_ts (ts : Ts) (jitters : ℕ → ℚ) (keep_tsupport : Bool) : Ts :=
  mkTs (sortQ (ts.t.enum.map fun p => p.2 + jitters p.1))
    (if keep_tsupport then some ts.time_support else none)

/-- `_jitter_tsgroup` (randomize.py lines 170-205): member `i`, timestamp
`j` receives perturbation `jitters i j`; with `keep_tsupport=True` the
group is rebuilt on the input support, otherwise the support is inferred. -/
def jitter_tsgroup (g : TsGroup) (jitters : ℕ → ℕ → ℚ) (keep_tsupport : Bool) :
    TsGroup :=
  mkTsGroup
    (g.members.enum.map fun p =>
      (p.2.1, sortQ (p.2.2.enum.map fun q => q.2 + jitters p.1 q.1)))
    (if keep_tsupport then some g.time_support else none)

/-- `_resample_ts` (randomize.py lines 237-253): `len(ts)` fresh draws
(`draws 0, ..., draws (n-1)`, each drawn from
`[ts.start_time(), ts.end_time()]`), sorted, on the input's support. -/
def resample_ts (ts : Ts) (draws : ℕ → ℚ) : Ts :=
  mkTs (sortQ ((List.range ts.t.length).map draws)) (some ts.time_support)

/-- The bounds `_resample_tsgroup` draws from (randomize.py lines 272-273):
index 0 of the group support's start and end arrays. -/
def resampleRange (g : TsGroup) : ℚ × ℚ :=
  ((g.time_support.intervals.headD (0, 0)).1,
   (g.time_support.intervals.headD (0, 0)).2)

/-- The per-member redraw stage of `_resample_tsgroup` (randomize.py lines
275-278): member `i` gets `len(tsgroup[k])` fresh draws `draws i j`. -/
def resample_tsgroup_stage (g : TsGroup) (draws : ℕ → ℕ → ℚ) :
    List (ℕ × List ℚ) :=
  g.members.enum.map fun p =>
    (p.2.1, sortQ ((List.range p.2.2.length).map (draws p.1)))

/-- `_resample_tsgroup` (randomize.py lines 256-280): redraw stage followed
by `nap.TsGroup(..., time_support=tsgroup.time_support)`. -/
def resample_tsgroup (g : TsGroup) (draws : ℕ → ℕ → ℚ) : TsGroup :=
  mkTsGroup (resample_tsgroup_stage g draws) (some g.time_support)

/-- A value handed to the randomize dispatchers: a `Ts`, a `TsGroup`, or
anything else (strings, numbers, ...), which the type check rejects. -/
inductive NapObject where
  | ts (x : Ts)
  | tsgroup (g : TsGroup)
  | other (tag : String)
deriving DecidableEq, Repr

/-- `shift_timestamps` (randomize.py lines 8-36): dispatch on the input
type, raising `TypeError('Invalid input type, should be Ts or TsGroup')`
otherwise.  `u` supplies the uniform draws (one for a `Ts`, one per member
for a `TsGroup`); `min_shift`/`max_shift` bound the draws and appear as
hypotheses where a claim needs them. -/
def shift_timestamps (v : NapObject) (min_shift : ℚ) (max_shift : Option ℚ)
    (u : ℕ → ℚ) : Except String NapObject :=
  match v with
  | .ts x => .ok (.ts (shift_ts x (u 0)))
  | .tsgroup g => .ok (.tsgroup (shift_tsgroup g u))
  | .other _ => .error "Invalid input type, should be Ts or TsGroup"

/-- `jitter_timestamps` (randomize.py lines 104-138): the type check comes
first, then the missing-argument check
`TypeError('missing required argument: max_jitter ')`. -/
def jitter_timestamps (v : NapObject) (min_jitter : ℚ) (max_jitter : Option ℚ)
    (keep_tsupport : Bool) (u : ℕ → ℕ → ℚ) : Except String NapObject :=
  match v with
  | .other _ => .error "Invalid input type, should be Ts or TsGroup"
  | .ts x =>
      match max_jitter with
      | none => .error "missing required argument: max_jitter "
      | some _ => .ok (.ts (jitter_ts x (u 0) keep_tsupport))
  | .tsgroup g =>
      match max_jitter with
      | none => .error "missing required argument: max_jitter "
      | some _ => .ok (.tsgroup (jitter_tsgroup g u keep_tsupport))

/-- `resample_timestamps` (randomize.py lines 209-234): dispatch on the
input type with the same type error as the other two entry points. -/
def resample_timestamps (v : NapObject) (u : ℕ → ℕ → ℚ) :
    Except String NapObject :=
  match v with
  | .ts x => .ok (.ts (resample_ts x (u 0)))
  | .tsgroup g => .ok (.tsgroup (resample_tsgroup g u))
  | .other _ => .error "Invalid input type, should be Ts or TsGroup"

/-- Modelled from the spec: the spectral module (`compute_spectogram`, the
spec's `compute_power_spectral_density`) is not under `src/`; only its test
is.  Per the spec, the signal is an `n`-sample, `channels`-column container
with a time support; the computation rejects an epoch (or, with `ep`
omitted, an own time support) that is not exactly one interval with the
fixed value-error message, and otherwise returns a table of `n/2` rows
(`n` with `full_range=True`) and one column per channel. -/
structure Signal where
  n : ℕ
  channels : ℕ
  time_support : IntervalSet
deriving DecidableEq, Repr

/-- Modelled from the spec: the single-epoch PSD entry point (see
`Signal`); the result is abstracted to the output table's shape. -/
def compute_spectogram (sig : Signal) (ep : Option IntervalSet)
    (full_range : Bool) : Except String (ℕ × ℕ) :=
  let e := ep.getD sig.time_support
  if e.intervals.length = 1 then
    .ok (if full_range then sig.n else sig.n / 2, sig.channels)
  else .error "Given epoch (or signal time_support) must have length 1"

/-- Rational `np.arange a b s` for `s > 0`: the points `a + k*s` for
`k < ⌈(b - a) / s⌉`. -/
def arangeQ (a b s : ℚ) : List ℚ :=
  (List.range (⌈(b - a) / s⌉).toNat).map fun i => a + s * i

/-- Modelled from the spec: the wavelet module's expansion of a `freqs`
triple is not under `src/`.  The repository's own test
(`test_signal_processing.py` lines 132-136) fixes it: the triple
`(1, 51, 10)` must yield 6 frequency bins, which matches a
`(start, stop, step)` reading expanded as `np.arange(start, stop + step,
step)` and excludes a `(start, stop, count)` reading (10 bins). -/
def createFreqs (freq_start freq_stop freq_step : ℚ) : List ℚ :=
  arangeQ freq_start (freq_stop + freq_step) freq_step

/-- The `freqs` argument of the wavelet transform: an explicit array of
center frequencies, or a triple to be expanded. -/
inductive FreqSpec where
  | arr (freqs : List ℚ)
  | triple (a b c : ℚ)
deriving DecidableEq, Repr

/-- Modelled from the spec: a `FreqSpec` triple is expanded by
`createFreqs` before the wavelet bank is built; an explicit array is used
as given. -/
def expandFreqs : FreqSpec → List ℚ
  | .arr freqs => freqs
  | .triple a b c => createFreqs a b c

/-- Modelled from the spec: the wavelet transform's output shape for a
single-channel signal — one row per sample, one column per expanded
center frequency. -/
def compute_wavelet_transform_shape (sig : Signal) (freqs : FreqSpec) :
    ℕ × ℕ :=
  (sig.n, (expandFreqs freqs).length)

/-- Concrete shift input: two timestamps on the single-interval support
`[10, 20]`. -/
def exShift : Ts := ⟨[11, 19], ⟨[(10, 20)]⟩⟩

/-- Concrete resample input: two timestamps on the two-interval support
`[0, 1] ∪ [9, 10]`. -/
def exResample : Ts := ⟨[0, 9], ⟨[(0, 1), (9, 10)]⟩⟩

/-- Concrete PSD input: a signal whose own time support has two disjoint
intervals (as in the repository's test). -/
def exSignal : Signal := ⟨1000, 1, ⟨[(0, 1), (2, 3)]⟩⟩

/-- Concrete wavelet input: a 1024-sample signal on one interval (as in
the repository's test). -/
def exWaveSignal : Signal := ⟨1024, 1, ⟨[(0, 1)]⟩⟩

/-- Concrete group for the first-interval claims: one member, support
`[0, 1] ∪ [2, 3]`. -/
def exGroup : TsGroup := ⟨[(0, [0, 1])], ⟨[(0, 1), (2, 3)]⟩⟩

/-- A second group sharing `exGroup`'s members and first interval but a
different second interval. -/
def exGroup' : TsGroup := ⟨[(0, [0, 1])], ⟨[(0, 1), (5, 9)]⟩⟩

/-- Sortedness of a dispatcher output: the timestamps of a returned `Ts`,
and of every member of a returned `TsGroup`, are non-decreasing. -/
def napSorted : NapObject → Prop
  | .ts x => List.Sorted (· ≤ ·) x.t
  | .tsgroup g => ∀ kv ∈ g.members, List.Sorted (· ≤ ·) kv.2
  | .other _ => True

/-- `napSorted` lifted to the dispatchers' `Except` results (vacuous on a
raised error). -/
def exceptSorted : Except String NapObject → Prop
  | .ok o => napSorted o
  | .error _ => True

lemma sortQ_sorted (l : List ℚ) : List.Sorted (· ≤ ·) (sortQ l) :=
  List.sorted_insertionSort _ l

lemma sortQ_length (l : List ℚ) : (sortQ l).length = l.length :=
  (List.perm_insertionSort _ l).length_eq

lemma mkTs_none_t (l : List ℚ) : (mkTs l none).t = l := by
  cases l <;> rfl

lemma mkTs_sorted (l : List ℚ) (s : Option IntervalSet)
    (h : List.Sorted (· ≤ ·) l) : List.Sorted (· ≤ ·) (mkTs l s).t := by
  cases s with
  | some S => exact h.filter _
  | none => rw [mkTs_none_t]; exact h

lemma mkTsGroup_sorted (members : List (ℕ × List ℚ)) (s : Option IntervalSet)
    (h : ∀ kv ∈ members, List.Sorted (· ≤ ·) kv.2) :
    ∀ kv ∈ (mkTsGroup members s).members, List.Sorted (· ≤ ·) kv.2 := by
  cases s with
  | some S =>
      intro kv hkv
      simp only [mkTsGroup, List.mem_map] at hkv
      obtain ⟨kv0, hkv0, rfl⟩ := hkv
      exact (h kv0 hkv0).filter _
  | none => exact h

lemma enum_map_sortQ_sorted (l : List (ℕ × List ℚ))
    (F : ℕ × (ℕ × List ℚ) → List ℚ) :
    ∀ kv ∈ l.enum.map fun p => (p.2.1, sortQ (F p)),
      List.Sorted (· ≤ ·) kv.2 := by
  intro kv hkv
  simp only [List.mem_map] at hkv
  obtain ⟨p, _, rfl⟩ := hkv
  exact sortQ_sorted _

lemma map_keylen_enumFrom (F : ℕ → List ℚ → List ℚ)
    (hF : ∀ i t, (F i t).length = t.length) :
    ∀ (n : ℕ) (l : List (ℕ × List ℚ)),
      ((List.enumFrom n l).map fun p => (p.2.1, F p.1 p.2.2)).map
          (fun kv => (kv.1, kv.2.length))
        = l.map fun kv => (kv.1, kv.2.length) := by
  intro n l
  induction l generalizing n with
  | nil => rfl
  | cons a l ih =>
      simp [List.enumFrom, hF, ih]

/-- C1: evaluation of the code at a failing input.  On the Ts with
timestamps `[11, 19]` and single-interval support `[10, 20]`, the drawn
shift `2` (within the default bounds `[0, support duration)`) sends the
wrapped stamps to `[23, 11]`: the value `23 = (19 + 2) % 20 + 10` lies
past the support's end instead of wrapping back to its start, is outside
the support, and is dropped by the constructor, so the output `[11]` is
not a circular rotation of the two input timestamps and not every wrapped
timestamp lies within `[10, 20]`. -/
theorem c1_shift_wrap_escapes_single_interval_support :
    exShift.time_support = ⟨[(10, 20)]⟩ ∧
    shiftedStamps exShift 2 = [23, 11] ∧
    exShift.time_support.memB 23 = false ∧
    (shift_ts exShift 2).t = [11] ∧
    exShift.t.length = 2 := by
  refine ⟨rfl, ?_, ?_, ?_, rfl⟩
  · norm_num [shiftedStamps, exShift, Ts.start_time, Ts.end_time, qmod]
  · norm_num [IntervalSet.memB, exShift]
  · norm_num [shift_ts, exShift, Ts.start_time, Ts.end_time, qmod, mkTs,
      sortQ, List.insertionSort, List.orderedInsert, IntervalSet.memB,
      List.filter]

/-- C2: evaluation of the code at a failing input.  `shift_timestamps` on
the same two-timestamp Ts (support `[10, 20]`, default shift bounds, drawn
shift `2`) preserves the time support exactly but returns only one
timestamp, so the count is not conserved. -/
theorem c2_shift_count_not_conserved :
    shift_timestamps (NapObject.ts exShift) 0 none (fun _ => 2)
      = Except.ok (NapObject.ts (shift_ts exShift 2)) ∧
    (shift_ts exShift 2).time_support = exShift.time_support ∧
    (shift_ts exShift 2).t.length = 1 ∧
    exShift.t.length = 2 := by
  refine ⟨rfl, rfl, ?_, rfl⟩
  have h : (shift_ts exShift 2).t = [11] := by
    norm_num [shift_ts, exShift, Ts.start_time, Ts.end_time, qmod, mkTs,
      sortQ, List.insertionSort, List.orderedInsert, IntervalSet.memB,
      List.filter]
  rw [h]
  rfl

/-- C3: evaluation of the code at a failing input.  On the Ts with
timestamps `[0, 9]` and the two-interval support `[0, 1] ∪ [9, 10]`,
`_resample_ts` draws from the whole range `[start_time, end_time] =
[0, 10]`; the legitimate draw `5` (twice) lands in the gap, is not in any
interval of the support, and is dropped, so the output is empty instead of
count-preserving. -/
theorem c3_resample_draw_outside_gapped_support :
    exResample.time_support = ⟨[(0, 1), (9, 10)]⟩ ∧
    exResample.start_time ≤ 5 ∧ (5 : ℚ) ≤ exResample.end_time ∧
    exResample.time_support.memB 5 = false ∧
    (resample_ts exResample (fun _ => 5)).t = [] ∧
    exResample.t.length = 2 := by
  refine ⟨rfl, by norm_num [Ts.start_time, exResample],
    by norm_num [Ts.end_time, exResample], ?_, ?_, rfl⟩
  · norm_num [IntervalSet.memB, exResample]
  · norm_num [resample_ts, exResample, mkTs, sortQ, List.insertionSort,
      List.orderedInsert, IntervalSet.memB, List.filter, List.range_succ]

/-- C4: for every Ts or TsGroup and every drawn perturbations,
`jitter_timestamps` with `keep_tsupport=True` returns an output whose time
support equals the input's (so its bounds are equal), and with
`keep_tsupport=False` an output whose per-series event count equals the
input's (same keys, same per-member counts for a group). -/
theorem c4_jitter_support_and_count :
    ∀ (ts : Ts) (g : TsGroup) (u : ℕ → ℚ) (w : ℕ → ℕ → ℚ),
      (jitter_ts ts u true).time_support = ts.time_support ∧
      (jitter_ts ts u false).t.length = ts.t.length ∧
      (jitter_tsgroup g w true).time_support = g.time_support ∧
      (jitter_tsgroup g w false).members.map (fun kv => (kv.1, kv.2.length))
        = g.members.map fun kv => (kv.1, kv.2.length) := by
  intro ts g u w
  refine ⟨rfl, ?_, rfl, ?_⟩
  · rw [jitter_ts]
    simp only [if_neg Bool.false_ne_true, mkTs_none_t, sortQ_length,
      List.length_map, List.enum_length]
  · rw [jitter_tsgroup]
    simp only [if_neg Bool.false_ne_true]
    have h := map_keylen_enumFrom
      (fun i t => sortQ (t.enum.map fun q => q.2 + w i q.1))
      (by intro i t; rw [sortQ_length]; simp) 0 g.members
    simpa [mkTsGroup, List.enum] using h

/-- C5: for every signal and epoch argument whose effective epoch (the
given `ep`, or the signal's own time support when `ep` is omitted) has two
or more intervals, the PSD computation returns the fixed value error
`"Given epoch (or signal time_support) must have length 1"` and no output
table. -/
theorem c5_psd_multi_interval_epoch_error
    (sig : Signal) (ep : Option IntervalSet) (full_range : Bool)
    (h : 2 ≤ (ep.getD sig.time_support).intervals.length) :
    compute_spectogram sig ep full_range
      = Except.error "Given epoch (or signal time_support) must have length 1" := by
  unfold compute_spectogram
  rw [if_neg]
  omega

/-- Witness for C5 at the repository test's shape: a 1000-sample signal
whose own time support is `[0, 1] ∪ [2, 3]` and `ep` omitted. -/
theorem c5_psd_multi_interval_epoch_error_witness :
    2 ≤ ((none : Option IntervalSet).getD exSignal.time_support).intervals.length ∧
    compute_spectogram exSignal none false
      = Except.error "Given epoch (or signal time_support) must have length 1" :=
  ⟨by norm_num [exSignal], c5_psd_multi_interval_epoch_error exSignal none false
    (by norm_num [exSignal])⟩

/-- C6 counterexample: the claim says a `(start, stop, count)` triple
yields `count` frequency bins; at the repository test's input
`(1, 51, 10)` the wavelet output has 6 frequency bins, not 10. -/
theorem c6_triple_bin_count_ne_count :
    (compute_wavelet_transform_shape exWaveSignal (FreqSpec.triple 1 51 10)).2 = 6 ∧
    (compute_wavelet_transform_shape exWaveSignal (FreqSpec.triple 1 51 10)).2 ≠ 10 := by
  have h6 : (⌈((51 : ℚ) + 10 - 1) / 10⌉).toNat = 6 := by
    norm_num
    rfl
  have h : expandFreqs (FreqSpec.triple 1 51 10) = [1, 11, 21, 31, 41, 51] := by
    simp only [expandFreqs, createFreqs, arangeQ, h6]
    simp [List.range_succ]
    norm_num
  constructor
  · simp [compute_wavelet_transform_shape, h]
  · simp [compute_wavelet_transform_shape, h]

/-- C6 amended: a `freqs` triple is `(start, stop, step)` — it produces
the same result as calling with the explicit array
`np.arange(start, stop + step, step)` it expands to; at the test's triple
`(1, 51, 10)` that array is `[1, 11, 21, 31, 41, 51]`, so the output has
6 frequency bins. -/
theorem c6_triple_expands_by_step :
    (∀ (sig : Signal) (a b s : ℚ),
      compute_wavelet_transform_shape sig (FreqSpec.triple a b s)
        = compute_wavelet_transform_shape sig
            (FreqSpec.arr (arangeQ a (b + s) s))) ∧
    expandFreqs (FreqSpec.triple 1 51 10) = [1, 11, 21, 31, 41, 51] ∧
    compute_wavelet_transform_shape exWaveSignal (FreqSpec.triple 1 51 10)
      = (1024, 6) := by
  have h6 : (⌈((51 : ℚ) + 10 - 1) / 10⌉).toNat = 6 := by
    norm_num
    rfl
  have h : expandFreqs (FreqSpec.triple 1 51 10) = [1, 11, 21, 31, 41, 51] := by
    simp only [expandFreqs, createFreqs, arangeQ, h6]
    simp [List.range_succ]
    norm_num
  refine ⟨fun sig a b s => rfl, h, ?_⟩
  simp [compute_wavelet_transform_shape, h, exWaveSignal]

/-- C7: for every input that is neither a Ts nor a TsGroup, each of the
three randomize entry points raises the type error naming the two accepted
shapes, `"Invalid input type, should be Ts or TsGroup"`, and returns no
output object. -/
theorem c7_type_error_names_accepted_shapes :
    ∀ (tag : String) (a m : ℚ) (b mj : Option ℚ) (u : ℕ → ℚ)
      (w : ℕ → ℕ → ℚ) (k : Bool),
      shift_timestamps (NapObject.other tag) a b u
        = Except.error "Invalid input type, should be Ts or TsGroup" ∧
      jitter_timestamps (NapObject.other tag) m mj k w
        = Except.error "Invalid input type, should be Ts or TsGroup" ∧
      resample_timestamps (NapObject.other tag) w
        = Except.error "Invalid input type, should be Ts or TsGroup" :=
  fun _ _ _ _ _ _ _ _ => ⟨rfl, rfl, rfl⟩

/-- C8: for every Ts or TsGroup input, `jitter_timestamps` with
`max_jitter` omitted raises `"missing required argument: max_jitter "` at
the call boundary, before any jittering. -/
theorem c8_missing_max_jitter_error :
    ∀ (x : Ts) (g : TsGroup) (m : ℚ) (k : Bool) (w : ℕ → ℕ → ℚ),
      jitter_timestamps (NapObject.ts x) m none k w
        = Except.error "missing required argument: max_jitter " ∧
      jitter_timestamps (NapObject.tsgroup g) m none k w
        = Except.error "missing required argument: max_jitter " :=
  fun _ _ _ _ _ => ⟨rfl, rfl⟩

/-- C9: for TsGroups whose supports have more than one interval, the
circular-wrap stage of `_shift_tsgroup` and the redraw bounds and stage of
`_resample_tsgroup` read only the first interval of the group support:
two groups with the same members whose supports agree on interval 0 give
identical wrap stages, identical redraw bounds, and identical redraw
stages, whatever the later intervals are. -/
theorem c9_group_ops_read_first_interval
    (g g' : TsGroup) (shifts : ℕ → ℚ) (draws : ℕ → ℕ → ℚ)
    (hm : g.members = g'.members)
    (h0 : g.time_support.intervals.headD (0, 0)
        = g'.time_support.intervals.headD (0, 0))
    (hg : 1 < g.time_support.intervals.length)
    (hg' : 1 < g'.time_support.intervals.length) :
    shift_tsgroup_stage g shifts = shift_tsgroup_stage g' shifts ∧
    resampleRange g = resampleRange g' ∧
    resample_tsgroup_stage g draws = resample_tsgroup_stage g' draws := by
  refine ⟨?_, ?_, ?_⟩
  · unfold shift_tsgroup_stage
    rw [hm, h0]
  · unfold resampleRange
    rw [h0]
  · unfold resample_tsgroup_stage
    rw [hm]

/-- Witness for C9: two one-member groups with first interval `[0, 1]` but
different second intervals (`[2, 3]` vs `[5, 9]`). -/
theorem c9_group_ops_read_first_interval_witness :
    shift_tsgroup_stage exGroup (fun _ => 1)
      = shift_tsgroup_stage exGroup' (fun _ => 1) ∧
    resampleRange exGroup = resampleRange exGroup' ∧
    resample_tsgroup_stage exGroup (fun _ _ => 0)
      = resample_tsgroup_stage exGroup' (fun _ _ => 0) :=
  c9_group_ops_read_first_interval exGroup exGroup' (fun _ => 1) (fun _ _ => 0)
    rfl rfl (by norm_num [exGroup]) (by norm_num [exGroup'])

/-- C10: every Ts returned by the three randomize entry points, and every
member of a returned TsGroup, has non-decreasing timestamps, whatever the
random draws were. -/
theorem c10_outputs_sorted :
    ∀ (v : NapObject) (a m : ℚ) (b mj : Option ℚ) (u : ℕ → ℚ)
      (w : ℕ → ℕ → ℚ) (k : Bool),
      exceptSorted (shift_timestamps v a b u) ∧
      exceptSorted (jitter_timestamps v m mj k w) ∧
      exceptSorted (resample_timestamps v w) := by
  intro v a m b mj u w k
  refine ⟨?_, ?_, ?_⟩
  · cases v with
    | ts x => exact mkTs_sorted _ _ (sortQ_sorted _)
    | tsgroup g =>
        exact mkTsGroup_sorted _ _ (enum_map_sortQ_sorted g.members _)
    | other tag => trivial
  · cases v with
    | ts x =>
        cases mj with
        | none => trivial
        | some _ => exact mkTs_sorted _ _ (sortQ_sorted _)
    | tsgroup g =>
        cases mj with
        | none => trivial
        | some _ =>
            exact mkTsGroup_sorted _ _ (enum_map_sortQ_sorted g.members _)
    | other tag => trivial
  · cases v with
    | ts x => exact mkTs_sorted _ _ (sortQ_sorted _)
    | tsgroup g =>
        exact mkTsGroup_sorted _ _ (enum_map_sortQ_sorted g.members _)
    | other tag => trivial
